import Mathlib

/-!
Verification of the Orchard sync core (store, filesystem adapter, sync engine)
against its natural-language specification.

The definitions below are a shallow embedding of the Python sources:
  - src/db/orchardDB.py     (the persistent store: objects, shadows, drive_cache, actions)
  - src/sync/engine.py      (the sync engine: dispatch loop, handlers, reconciliation)
  - src/fs/orchardFS.py     (the FUSE adapter: read, unlink, setxattr, blacklist)
  - src/objects/base.py and src/objects/drive.py (the object model)

SQL tables become lists of records, SQL UPDATE/DELETE become List.map / List.filter,
and the sqlite rowid/AUTOINCREMENT discipline is modelled by keeping the actions list
in insertion order (created_at is nondecreasing along the list) with a nextActionId
counter.
-/

namespace Orchard

/-- JSON-object metadata attached to an action row, as produced by json.dumps of a
Python dict whose values are strings or null.  A key mapped to `none` models JSON
null; a missing key and a null key are indistinguishable through dict.get, which is
exactly Python semantics. -/
abbrev Meta := List (String × Option String)

/-- Python dict.get: returns the value for the key, flattening null to `none`. -/
def metaGet (m : Meta) (k : String) : Option String :=
  (m.lookup k).join

/-- Python dict item assignment: replace the value at the key in place, or append. -/
def metaSet : Meta → String → Option String → Meta
  | [], k, v => [(k, v)]
  | (k0, v0) :: rest, k, v =>
    if k0 == k then (k0, v) :: rest else (k0, v0) :: metaSet rest k v

/-- Python dict.update: fold the second dict into the first, key by key. -/
def metaUpdate (prev new : Meta) : Meta :=
  new.foldl (fun acc kv => metaSet acc kv.1 kv.2) prev

/-- One row of the `objects` table (schema in src/db/orchardDB.py).  Flags stored as
INTEGER 0/1 in sqlite are Bool here; `syncState` keeps the TEXT column. -/
structure ObjectRow where
  oid : String
  otype : String
  parentId : Option String
  name : String
  extension : Option String
  size : Nat
  cloudId : Option String
  cloudParentId : Option String
  etag : Option String
  missingFromCloud : Bool
  dirty : Bool
  deleted : Bool
  syncState : String
  lastSynced : Nat
deriving DecidableEq, Repr

/-- One row of the `shadows` table. -/
structure ShadowRow where
  objectId : String
  cloudId : Option String
  parentId : Option String
  name : Option String
  etag : Option String
  fileHash : Option String
  modifiedAt : Option Nat
deriving DecidableEq, Repr

/-- One row of the `drive_cache` table.  `presentLocally` keeps the raw INTEGER
encoding used by the adapter: 0 = missing, 1 = full, 2 = partial. -/
structure CacheRow where
  objectId : String
  localPath : Option String
  size : Nat
  fileHash : Option String
  presentLocally : Nat
  pinned : Bool
  lastAccessed : Nat
  openCount : Nat
deriving DecidableEq, Repr

/-- One row of the `actions` table. -/
structure ActionRow where
  actionId : Nat
  actionType : String
  targetId : String
  destination : Option String
  metadata : Meta
  direction : String
  priority : Int
  createdAt : Nat
  status : String
  retryCount : Nat
  lastError : Option String
deriving DecidableEq, Repr

/-- The whole store.  Lists are kept in insertion (rowid) order. -/
structure DBState where
  objects : List ObjectRow
  shadows : List ShadowRow
  driveCache : List CacheRow
  actions : List ActionRow
  nextActionId : Nat
deriving DecidableEq, Repr

/-- SELECT * FROM objects WHERE id = ? -/
def getObject (s : DBState) (objId : String) : Option ObjectRow :=
  s.objects.find? (fun o => o.oid == objId)

/-- SELECT * FROM drive_cache WHERE object_id = ? -/
def getCacheRow (s : DBState) (objId : String) : Option CacheRow :=
  s.driveCache.find? (fun c => c.objectId == objId)

/-- SELECT * FROM shadows WHERE object_id = ? (OrchardDB.get_shadow). -/
def getShadowRow (s : DBState) (objId : String) : Option ShadowRow :=
  s.shadows.find? (fun sh => sh.objectId == objId)

/-- Modelled from the spec: `src/config/sync_config.py` is imported by the engine and
the store (`from src.config.sync_config import MAX_RETRIES, BASE_BACKOFF_SECONDS`) but
the file itself is not in the tree.  The spec gives the default retry cap: 5. -/
def MAX_RETRIES : Nat := 5

/-- Modelled from the spec: exponential backoff base from the missing
`src/config/sync_config.py`; the spec gives the default: 30 seconds. -/
def BASE_BACKOFF_SECONDS : Nat := 30

/-- CHUNK_SIZE in src/fs/orchardFS.py: fixed 8 MiB chunks. -/
def CHUNK_SIZE : Nat := 8 * 1024 * 1024

/-- PARTIAL_THRESHOLD in src/fs/orchardFS.py: 32 MiB. -/
def PARTIAL_THRESHOLD : Nat := 32 * 1024 * 1024

/-! ## Store operations (src/db/orchardDB.py) -/

/-- INSERT OR IGNORE INTO objects: insert only when no row with this id exists. -/
def insertOrIgnoreObject (s : DBState) (o : ObjectRow) : DBState :=
  if s.objects.any (fun x => x.oid == o.oid) then s
  else { s with objects := s.objects ++ [o] }

/-- The synthetic filesystem root row inserted by OrchardDB._init_db.  Columns not
given in the INSERT take their schema defaults. -/
def rootRow : ObjectRow :=
  { oid := "root", otype := "folder", parentId := none, name := "root",
    extension := none, size := 0, cloudId := none, cloudParentId := none,
    etag := none, missingFromCloud := false, dirty := false, deleted := false,
    syncState := "synced", lastSynced := 0 }

/-- The drive root row inserted by OrchardDB._init_db. -/
def driveRootRow : ObjectRow :=
  { oid := "drive_root", otype := "folder", parentId := some "root", name := "Drive",
    extension := none, size := 0, cloudId := none, cloudParentId := none,
    etag := none, missingFromCloud := false, dirty := false, deleted := false,
    syncState := "synced", lastSynced := 0 }

/-- OrchardDB._init_db: executescript(SCHEMA) only issues CREATE TABLE IF NOT EXISTS /
CREATE INDEX IF NOT EXISTS statements, which change no rows; then the two root
objects are inserted with INSERT OR IGNORE.  No other statement runs at open. -/
def initDb (s : DBState) : DBState :=
  insertOrIgnoreObject (insertOrIgnoreObject s rootRow) driveRootRow

/-- OrchardDB.update_shadow: insert a full row when absent, otherwise patch exactly
the fields passed as non-None. -/
def updateShadow (s : DBState) (objId : String)
    (cloudId parentId name etag fileHash : Option String)
    (modifiedAt : Option Nat) : DBState :=
  if s.shadows.any (fun sh => sh.objectId == objId) then
    { s with shadows := s.shadows.map (fun sh =>
        if sh.objectId == objId then
          { sh with
            cloudId := match cloudId with | some v => some v | none => sh.cloudId,
            parentId := match parentId with | some v => some v | none => sh.parentId,
            name := match name with | some v => some v | none => sh.name,
            etag := match etag with | some v => some v | none => sh.etag,
            fileHash := match fileHash with | some v => some v | none => sh.fileHash,
            modifiedAt := match modifiedAt with | some v => some v | none => sh.modifiedAt }
        else sh) }
  else
    { s with shadows := s.shadows ++
        [{ objectId := objId, cloudId := cloudId, parentId := parentId, name := name,
           etag := etag, fileHash := fileHash, modifiedAt := modifiedAt }] }

/-- The rows enqueue_action fetches for coalescing: all pending, processing or failed
actions for the target, ORDER BY created_at DESC.  The stored list is in insertion
order with nondecreasing created_at, so descending order is the reverse. -/
def pendingDesc (s : DBState) (targetId : String) : List ActionRow :=
  (s.actions.filter (fun a =>
    a.targetId == targetId &&
    (a.status == "pending" || a.status == "processing" || a.status == "failed"))).reverse

/-- Outcome of the coalescing scan inside enqueue_action. -/
inductive CoalesceDecision where
  | updateRow (aid : Nat) (newDest : Option (Option String)) (newMeta : Meta)
  | insert
deriving DecidableEq, Repr

/-- The rename branch of enqueue_action: walk the descending list; stop at a
processing row; fold into a previous rename (overwrite destination and to_name) or a
previous upload / update_content (merge metadata, set name); skip over moves. -/
def renameScan (newDest : Option String) (newMeta : Meta) :
    List ActionRow → CoalesceDecision
  | [] => .insert
  | r :: rest =>
    if r.status == "processing" then .insert
    else if r.actionType == "rename" then
      .updateRow r.actionId (some newDest)
        (metaSet r.metadata "to_name" (metaGet newMeta "to_name"))
    else if r.actionType == "upload" || r.actionType == "update_content" then
      .updateRow r.actionId none
        (metaSet (metaUpdate r.metadata newMeta) "name" (metaGet newMeta "to_name"))
    else if r.actionType == "move" then renameScan newDest newMeta rest
    else .insert

/-- The move branch of enqueue_action: fold into a previous move (overwrite
destination); skip over renames. -/
def moveScan (newDest : Option String) : List ActionRow → CoalesceDecision
  | [] => .insert
  | r :: rest =>
    if r.status == "processing" then .insert
    else if r.actionType == "move" then
      .updateRow r.actionId (some newDest) r.metadata
    else if r.actionType == "rename" then moveScan newDest rest
    else .insert

/-- The update_content branch of enqueue_action: merge metadata into a previous
update_content or upload; skip over renames and moves. -/
def updateContentScan (newMeta : Meta) : List ActionRow → CoalesceDecision
  | [] => .insert
  | r :: rest =>
    if r.status == "processing" then .insert
    else if r.actionType == "update_content" || r.actionType == "upload" then
      .updateRow r.actionId none (metaUpdate r.metadata newMeta)
    else if r.actionType == "rename" || r.actionType == "move" then
      updateContentScan newMeta rest
    else .insert

/-- OrchardDB.enqueue_action.  Faithful to the structural coalescer in
src/db/orchardDB.py lines 204-317: list_children deduplicates against any queued
list_children for the target; delete first discards every non-processing action for
the target and then inserts; rename / move / update_content fold per the scans above
(update_and_exit resets the folded row to pending with retry_count 0 and last_error
cleared); everything else inserts a fresh pending row. -/
def enqueueAction (s : DBState) (targetId actionType direction : String)
    (dest : Option String) (meta : Meta) (priority : Int) (now : Nat) : DBState :=
  let pend := pendingDesc s targetId
  if actionType == "list_children" &&
      pend.any (fun r => r.actionType == "list_children") then s
  else
    let s1 :=
      if actionType == "delete" then
        { s with actions := s.actions.filter (fun a =>
            !(a.targetId == targetId &&
              (a.status == "pending" || a.status == "failed"))) }
      else s
    let dec : CoalesceDecision :=
      if actionType == "rename" then renameScan dest meta pend
      else if actionType == "move" then moveScan dest pend
      else if actionType == "update_content" then updateContentScan meta pend
      else .insert
    match dec with
    | .updateRow aid d? m =>
      { s1 with actions := s1.actions.map (fun a =>
          if a.actionId == aid then
            { a with destination := d?.getD a.destination, metadata := m,
                     status := "pending", retryCount := 0, lastError := none }
          else a) }
    | .insert =>
      { s1 with
        actions := s1.actions ++
          [{ actionId := s1.nextActionId, actionType := actionType,
             targetId := targetId, destination := dest, metadata := meta,
             direction := direction, priority := priority, createdAt := now,
             status := "pending", retryCount := 0, lastError := none }],
        nextActionId := s1.nextActionId + 1 }

/-- OrchardDB.complete_action: DELETE FROM actions WHERE action_id = ?. -/
def completeAction (s : DBState) (aid : Nat) : DBState :=
  { s with actions := s.actions.filter (fun a => a.actionId != aid) }

/-- OrchardDB.fail_action: unconditionally set status failed, record the error and
increment retry_count; then, when the new retry_count exceeds MAX_RETRIES, mark the
target object sync_state = error and delete the action. -/
def failAction (s : DBState) (aid : Nat) (targetObjId : String)
    (errMsg : String) : DBState :=
  let s1 : DBState := { s with actions := s.actions.map (fun a : ActionRow =>
      if a.actionId == aid then
        { a with status := "failed", lastError := some errMsg,
                 retryCount := a.retryCount + 1 }
      else a) }
  match s1.actions.find? (fun a => a.actionId == aid) with
  | some a =>
    if a.retryCount > MAX_RETRIES then
      { s1 with
        objects := s1.objects.map (fun o : ObjectRow =>
          if o.oid == targetObjId then { o with syncState := "error" } else o),
        actions := s1.actions.filter (fun a2 => a2.actionId != aid) }
    else s1
  | none => s1

/-- created_at + BASE_BACKOFF_SECONDS * 2 ^ retry_count, the retry eligibility time
computed by SyncEngine._get_next_retryable_action. -/
def nextRetryTime (a : ActionRow) : Nat :=
  a.createdAt + BASE_BACKOFF_SECONDS * 2 ^ a.retryCount

/-- SyncEngine._get_next_retryable_action, selection only (the status=processing
write is separate): first the oldest pending row, otherwise the failed row with the
smallest nextRetryTime that is due.  Rows in any other status are never selected. -/
def getNextRetryableAction (s : DBState) (now : Nat) : Option ActionRow :=
  match s.actions.filter (fun a => a.status == "pending") with
  | a :: _ => some a
  | [] =>
    (s.actions.filter (fun a =>
      a.status == "failed" && decide (nextRetryTime a ≤ now))).foldl
      (fun best a =>
        match best with
        | none => some a
        | some b => if nextRetryTime a < nextRetryTime b then some a else some b)
      none

/-! ## Sync engine (src/sync/engine.py) -/

/-- The fields of the dict returned by drive_svc.upload_file that _handle_upload and
_handle_update_content read via resp.get. -/
structure UploadResp where
  documentId : Option String
  etag : Option String
  name : Option String
  extension : Option String
  size : Option Nat
deriving DecidableEq, Repr

/-- SyncEngine._mark_synced: UPDATE objects SET dirty=0, sync_state=synced,
last_synced=now WHERE id=?. -/
def markSynced (s : DBState) (objId : String) (now : Nat) : DBState :=
  { s with objects := s.objects.map (fun o : ObjectRow =>
      if o.oid == objId then
        { o with dirty := false, syncState := "synced", lastSynced := now }
      else o) }

/-- The database effect of SyncEngine._handle_upload for a file when
drive_svc.upload_file returns without raising (engine.py lines 185-202): when the
response carries a document_id, one UPDATE on the objects row records the new cloud
id, etag, COALESCE-merged size / name / extension, clears missing_from_cloud and
dirty, and sets sync_state = synced; otherwise fall back to _mark_synced.  No other
table is touched: in particular no shadows row is inserted or updated
(OrchardDB.update_shadow has no caller anywhere in the repository). -/
def handleUploadFileSuccess (s : DBState) (objId : String) (resp : UploadResp)
    (now : Nat) : DBState :=
  match resp.documentId with
  | some cid =>
    { s with objects := s.objects.map (fun o : ObjectRow =>
        if o.oid == objId then
          { o with cloudId := some cid, etag := resp.etag,
                   size := resp.size.getD o.size,
                   name := resp.name.getD o.name,
                   extension := match resp.extension with
                     | some e => some e
                     | none => o.extension,
                   missingFromCloud := false, dirty := false,
                   syncState := "synced", lastSynced := now }
        else o) }
  | none => markSynced s objId now

/-- SyncEngine._handle_delete: return without any effect when the object is absent
or has no cloud id; otherwise call drive_svc.delete_item (the returned Bool records
that the remote delete was invoked) and then DELETE the objects row and the
drive_cache row.  There is no DELETE FROM shadows, and the schema's ON DELETE
CASCADE on shadows never fires because no connection executes
PRAGMA foreign_keys=ON (sqlite keeps foreign keys off by default). -/
def handleDelete (s : DBState) (objId : String) : DBState × Bool :=
  match getObject s objId with
  | none => (s, false)
  | some o =>
    match o.cloudId with
    | none => (s, false)
    | some _ =>
      ({ s with
         objects := s.objects.filter (fun x => x.oid != objId),
         driveCache := s.driveCache.filter (fun c => c.objectId != objId) },
       true)

/-- The per-exception branch of SyncEngine._loop (engine.py lines 61-63): every
exception raised by a handler, whatever its message, is passed to
OrchardDB.fail_action.  The loop inspects neither the message nor the exception
type, and self.api / self.drive_svc are left untouched. -/
def loopOnTaskFailure (s : DBState) (taskActionId : Nat) (taskTargetId : String)
    (errMsg : String) : DBState :=
  failAction s taskActionId taskTargetId errMsg

/-- One item of the list returned by drive_svc.list_directory, as read by
SyncEngine._pull_drive_folder. -/
structure RemoteItem where
  itype : String
  docwsid : Option String
  drivewsid : Option String
  name : String
  extension : Option String
  etag : Option String
  size : Nat
deriving DecidableEq, Repr

/-- _pull_drive_folder strips a trailing ".ext" from the remote display name. -/
def stripExt (rawName : String) (ext : Option String) : String :=
  match ext with
  | none => rawName
  | some e =>
    if ("." ++ e).data.isSuffixOf rawName.data then
      String.mk (rawName.data.take (rawName.data.length - e.data.length - 1))
    else rawName

/-- The cloud id _pull_drive_folder keys an item by: docwsid for files, drivewsid
otherwise. -/
def itemCloudId (item : RemoteItem) : Option String :=
  if item.itype == "FILE" then item.docwsid else item.drivewsid

/-- The per-item body of SyncEngine._pull_drive_folder (engine.py lines 487-531),
without the recursive descent into subfolders.  Matching is by cloud id only.  A new
item inserts an objects row (sync_state synced, fresh local id) and a drive_cache
row.  An existing row whose stored etag differs from the remote one is overwritten
in place: etag, name, size, extension, parent_id, cloud_parent_id are all updated
and missing_from_cloud cleared, with no dirty check and no sync_state change; when
such a file is cached present locally, a download action is enqueued.  An existing
row with an unchanged etag only has a stale missing_from_cloud flag cleared. -/
def pullItemStep (s : DBState) (cloudFolderId : String) (localParentId : String)
    (item : RemoteItem) (freshId : String) (now : Nat) : DBState :=
  let cId := itemCloudId item
  let nm := stripExt item.name item.extension
  match s.objects.find? (fun o => cId.isSome && o.cloudId == cId) with
  | none =>
    let newObj : ObjectRow :=
      { oid := freshId, otype := item.itype.toLower, parentId := some localParentId,
        name := nm, extension := item.extension, size := item.size,
        cloudId := cId, cloudParentId := some cloudFolderId, etag := item.etag,
        missingFromCloud := false, dirty := false, deleted := false,
        syncState := "synced", lastSynced := 0 }
    let newCache : CacheRow :=
      { objectId := freshId, localPath := none,
        size := if item.itype == "FILE" then item.size else 0,
        fileHash := none, presentLocally := 0, pinned := false,
        lastAccessed := 0, openCount := 0 }
    { s with objects := s.objects ++ [newObj],
             driveCache := s.driveCache ++ [newCache] }
  | some row =>
    if row.etag != item.etag then
      let s1 : DBState := { s with objects := s.objects.map (fun o : ObjectRow =>
          if o.oid == row.oid then
            { o with etag := item.etag, name := nm, size := item.size,
                     extension := item.extension,
                     parentId := some localParentId,
                     cloudParentId := some cloudFolderId,
                     missingFromCloud := false }
          else o) }
      -- the drive_cache fetch happens after the objects UPDATE, but that UPDATE
      -- leaves drive_cache untouched, so the lookup reads the original cache rows
      if item.itype == "FILE" then
        match getCacheRow s row.oid with
        | some cache =>
          if cache.presentLocally != 0 then
            enqueueAction s1 row.oid "download" "pull" none [] 0 now
          else s1
        | none => s1
      else s1
    else if row.missingFromCloud then
      { s with objects := s.objects.map (fun o : ObjectRow =>
          if o.oid == row.oid then { o with missingFromCloud := false } else o) }
    else s

/-- The remote-deletion sweep at the end of SyncEngine._pull_drive_folder (engine.py
lines 533-543): every child of the folder that carries a cloud id absent from the
listing is marked conflict when it is dirty and not already missing_from_cloud,
and otherwise soft-deleted with sync_state synced. -/
def pullSweep (s : DBState) (localParentId : String)
    (currentCloudIds : List String) : DBState :=
  { s with objects := s.objects.map (fun o : ObjectRow =>
      if o.parentId == some localParentId && o.cloudId.isSome &&
          !(o.cloudId.any (fun c => currentCloudIds.contains c)) then
        if o.dirty && !o.missingFromCloud then { o with syncState := "conflict" }
        else { o with deleted := true, syncState := "synced" }
      else o) }

/-- The dispatch table of SyncEngine._process_task: which handler runs for an
(action_type, direction) pair.  list_children is served only for the drive_root
sentinel target; push dispatches upload / update_content / rename / move / delete;
pull dispatches download / ensure_latest.  Every other pair - download_chunk and
list_children on ordinary folders included - falls through the if/elif chains, so
the task is a no-op and _loop then deletes it via complete_action. -/
def processTaskHandler (actionType direction : String)
    (targetIsDriveRoot : Bool) : Option String :=
  if actionType == "list_children" && targetIsDriveRoot then
    some "pull_drive_folder"
  else if direction == "push" then
    if actionType == "upload" then some "handle_upload"
    else if actionType == "update_content" then some "handle_update_content"
    else if actionType == "rename" then some "handle_rename"
    else if actionType == "move" then some "handle_move"
    else if actionType == "delete" then some "handle_delete"
    else none
  else if direction == "pull" then
    if actionType == "download" then some "handle_download"
    else if actionType == "ensure_latest" then some "handle_ensure_latest"
    else none
  else none

/-! ## Filesystem adapter (src/fs/orchardFS.py, src/objects/base.py) -/

/-- IGNORED_PROCESSES in src/fs/orchardFS.py: the indexer / thumbnailer blacklist. -/
def IGNORED_PROCESSES : List String :=
  ["nautilus", "nemo", "caja", "thunar", "dolphin", "konqueror", "pcmanfm",
   "tracker-miner-f", "tracker-extract", "baloo_file", "updatedb", "locate",
   "gnome-shell", "systemd-user", "ffmpeg", "ffprobe", "totem",
   "evince-thumbnailer", "gstreamer", "gst-launch", "xdg-desktop-portal",
   "gnome-desktop-thumbnailer", "tumbler", "ffmpegthumbnailer",
   "glycin-thumbnailer", "xreader-thumbnailer", "gdk-pixbuf-thumbnailer",
   "mate-thumbnailer"]

/-- Python substring membership (needle in haystack): the needle is a prefix of
some suffix of the haystack. -/
def strContains (haystack needle : String) : Bool :=
  (List.range (haystack.data.length + 1)).any
    (fun i => needle.data.isPrefixOf (haystack.data.drop i))

/-- os.path.basename of the first space-separated word of the command line: the
characters before the first space, then the segment after the last slash. -/
def firstWordBasename (cmdline : String) : String :=
  let firstWord := cmdline.data.takeWhile (fun ch => ch != ' ')
  String.mk ((firstWord.reverse.takeWhile (fun ch => ch != '/')).reverse)

/-- OrchardFS._is_blacklisted_process given the caller command line read from
/proc/pid/cmdline (None when unreadable): any blacklist entry occurring in the
basename of the executable or anywhere in the command line matches. -/
def isBlacklistedProcess (cmdline : Option String) : Bool :=
  match cmdline with
  | none => false
  | some c =>
    IGNORED_PROCESSES.any (fun proc =>
      strContains (firstWordBasename c) proc || strContains c proc)

/-- The value of obj.local.present for every loaded object: LocalState.__init__ in
src/objects/base.py sets present = 0 and no subclass ever assigns local.present
(DriveObject stores the drive_cache value in the separate attribute
present_locally), so the adapter checks written against obj.local.present always
see 0. -/
def localStatePresent : Nat := 0

/-- The method names defined on class OrchardDB in src/db/orchardDB.py.  The adapter
calls self.db.get_present_chunks, which is not among them, so that call raises
AttributeError. -/
def orchardDBMethods : List String :=
  ["_init_db", "get_conn", "execute", "fetchone", "fetchall", "update_shadow",
   "get_shadow", "delete_shadow", "enqueue_action", "get_next_action",
   "complete_action", "fail_action"]

/-- The tables created by the SCHEMA script in src/db/orchardDB.py.  There is no
chunk_cache table, so the DELETE FROM chunk_cache issued by setxattr raises
sqlite3.OperationalError (no such table). -/
def schemaTables : List String := ["objects", "shadows", "drive_cache", "actions"]

/-- The chunk indices a read of [offset, offset+size) needs:
range(offset // CHUNK_SIZE, (offset + size - 1) // CHUNK_SIZE + 1). -/
def neededChunks (offset size : Nat) : List Nat :=
  List.range' (offset / CHUNK_SIZE)
    ((offset + size - 1) / CHUNK_SIZE + 1 - offset / CHUNK_SIZE)

/-- How OrchardFS.read terminates. -/
inductive ReadOutcome where
  | eacces
  | attrError (missingMethod : String)
  | localRead
deriving DecidableEq, Repr

/-- OrchardFS.read (orchardFS.py lines 251-290).  Because obj.local.present is
always 0 (localStatePresent), the partial branch runs on every read: a blacklisted
caller gets EACCES at once; any other caller reaches
self.db.get_present_chunks(obj.id), which raises AttributeError before any
download_chunk action can be enqueued, so the store is returned unchanged.  The
branch guarded on the store actually having the method is dead code kept to mirror
the source text. -/
def fsRead (s : DBState) (objId : String) (callerCmdline : Option String)
    (size offset : Nat) : ReadOutcome × DBState :=
  if localStatePresent != 1 then
    if isBlacklistedProcess callerCmdline then (.eacces, s)
    else
      let _needed := neededChunks offset size
      if orchardDBMethods.contains "get_present_chunks" then (.localRead, s)
      else (.attrError "get_present_chunks", s)
  else (.localRead, s)

/-- The adapter-visible world: the store plus the on-disk cache directory, one file
per object id with its byte size. -/
structure FSState where
  db : DBState
  disk : List (String × Nat)
deriving DecidableEq, Repr

/-- Size of the cache file for an object, when it exists on disk. -/
def diskSize (st : FSState) (objId : String) : Option Nat :=
  st.disk.lookup objId

/-- How OrchardFS.setxattr terminates. -/
inductive XattrOutcome where
  | ok
  | noSuchTable (table : String)
deriving DecidableEq, Repr

/-- OrchardFS.setxattr for user.orchard.pinned (orchardFS.py lines 501-535), on an
object the path resolved to.  The pinned flag is stored first in every case.
Pinning enqueues ensure_latest (obj.local.present is always 0, so the guard on it
always passes).  Unpinning is the evict: it is refused - cache file and
present_locally untouched - exactly when the objects row is dirty; open_count is
never consulted.  When it proceeds, the cache file (if any) is truncated to zero
and present_locally set to 0, and then DELETE FROM chunk_cache raises, because the
schema has no such table. -/
def setxattrSetPinned (st : FSState) (objId : String) (pinValue : Bool)
    (now : Nat) : FSState × XattrOutcome :=
  let obj? := getObject st.db objId
  let db0 := st.db
  let dbIns : DBState :=
    if db0.driveCache.any (fun c => c.objectId == objId) then db0
    else { db0 with driveCache := db0.driveCache ++
      [{ objectId := objId, localPath := none, size := 0, fileHash := none,
         presentLocally := 0, pinned := pinValue, lastAccessed := 0,
         openCount := 0 }] }
  let cachePinned := dbIns.driveCache.map (fun c : CacheRow =>
    if c.objectId == objId then { c with pinned := pinValue } else c)
  let dbPin : DBState := { dbIns with driveCache := cachePinned }
  if pinValue then
    ({ st with db := enqueueAction dbPin objId "ensure_latest" "pull" none [] 5 now },
     .ok)
  else
    match obj? with
    | none => ({ st with db := dbPin }, .ok)
    | some o =>
      if o.dirty then ({ st with db := dbPin }, .ok)
      else
        let disk1 := st.disk.map (fun p => if p.1 == objId then (p.1, 0) else p)
        let cacheEv := dbPin.driveCache.map (fun c : CacheRow =>
          if c.objectId == objId then { c with presentLocally := 0 } else c)
        let dbEv : DBState := { dbPin with driveCache := cacheEv }
        if schemaTables.contains "chunk_cache" then
          ({ db := dbEv, disk := disk1 }, .ok)
        else
          ({ db := dbEv, disk := disk1 }, .noSuchTable "chunk_cache")

/-- OrchardFS.unlink (orchardFS.py lines 422-432): mark the objects row deleted=1,
enqueue a delete action, and, for a file object, remove the on-disk cache file at
once.  The objects row itself is not removed here; only the engine's delete handler
hard-deletes it after the remote call. -/
def fsUnlink (st : FSState) (objId : String) (now : Nat) : FSState :=
  let objsDel := st.db.objects.map (fun o : ObjectRow =>
    if o.oid == objId then { o with deleted := true } else o)
  let db1 : DBState := { st.db with objects := objsDel }
  let db2 := enqueueAction db1 objId "delete" "push" none [] 0 now
  let isFile := (getObject st.db objId).any (fun o => o.otype == "file")
  let disk1 := if isFile then st.disk.filter (fun p => p.1 != objId) else st.disk
  { db := db2, disk := disk1 }

/-! ## Concrete states used to evaluate the operations -/

/-- A freshly created local file ("a.txt"), dirty and never pushed. -/
def uploadObjRow : ObjectRow :=
  { oid := "f1", otype := "file", parentId := some "drive_root", name := "a",
    extension := some "txt", size := 5, cloudId := none, cloudParentId := none,
    etag := none, missingFromCloud := false, dirty := true, deleted := false,
    syncState := "pending_push", lastSynced := 0 }

/-- Store holding only that file, with an empty shadows table. -/
def dbUpload : DBState :=
  { objects := [uploadObjRow], shadows := [], driveCache := [], actions := [],
    nextActionId := 1 }

/-- A successful upload_file response. -/
def uploadResp1 : UploadResp :=
  { documentId := some "c1", etag := some "e1", name := none, extension := none,
    size := some 5 }

/-- A queued rename to "b.txt" for object f1, as the adapter enqueues it. -/
def renameRowB : ActionRow :=
  { actionId := 1, actionType := "rename", targetId := "f1",
    destination := some "b.txt",
    metadata := [("from_name", some "a.txt"), ("to_name", some "b.txt")],
    direction := "push", priority := 0, createdAt := 100, status := "pending",
    retryCount := 0, lastError := none }

/-- Store whose queue holds exactly that rename. -/
def dbRename1 : DBState :=
  { objects := [], shadows := [], driveCache := [], actions := [renameRowB],
    nextActionId := 2 }

/-- An update_content action currently being processed. -/
def procActionRow : ActionRow :=
  { actionId := 1, actionType := "update_content", targetId := "f1",
    destination := none, metadata := [], direction := "push", priority := 0,
    createdAt := 0, status := "processing", retryCount := 0, lastError := none }

/-- Store with that in-flight action, as left behind by a crash. -/
def dbProcessing : DBState :=
  { objects := [uploadObjRow], shadows := [], driveCache := [],
    actions := [procActionRow], nextActionId := 2 }

/-- An error message carrying every transient-unavailability marker the spec
names. -/
def transientMsg : String :=
  "Connection reset by peer (socket timeout, HTTP 503, 409 Conflict)"

/-- A synced-then-edited file known to the cloud: dirty with a stale etag. -/
def oDirty : ObjectRow :=
  { oid := "o1", otype := "file", parentId := some "drive_root", name := "a",
    extension := some "txt", size := 5, cloudId := some "c9",
    cloudParentId := some "froot", etag := some "e1", missingFromCloud := false,
    dirty := true, deleted := false, syncState := "pending_push", lastSynced := 3 }

/-- Its cache row: fully present. -/
def cacheO1 : CacheRow :=
  { objectId := "o1", localPath := some "/cache/o1", size := 5, fileHash := none,
    presentLocally := 1, pinned := false, lastAccessed := 0, openCount := 0 }

/-- Its shadow row from the last successful sync. -/
def shadowO1 : ShadowRow :=
  { objectId := "o1", cloudId := some "c9", parentId := some "drive_root",
    name := some "a", etag := some "e1", fileHash := some "h1",
    modifiedAt := some 3 }

/-- Store for the conflict / delete experiments: o1 with cache and shadow. -/
def dbPull : DBState :=
  { objects := [oDirty], shadows := [shadowO1], driveCache := [cacheO1],
    actions := [], nextActionId := 1 }

/-- The remote reporting a newer version ("e2") of the same file. -/
def itemF : RemoteItem :=
  { itype := "FILE", docwsid := some "c9", drivewsid := none, name := "a.txt",
    extension := some "txt", etag := some "e2", size := 7 }

/-- A local-only object that has never been pushed (no cloud id). -/
def oLocalOnly : ObjectRow :=
  { oDirty with oid := "o2", cloudId := none }

/-- Store holding only that never-pushed object. -/
def dbDeleteNoCloud : DBState :=
  { objects := [oLocalOnly], shadows := [], driveCache := [], actions := [],
    nextActionId := 1 }

/-- A large cloud-only file: nothing cached locally. -/
def cloudOnlyObj : ObjectRow :=
  { oid := "big1", otype := "file", parentId := some "drive_root", name := "movie",
    extension := some "mkv", size := 104857600, cloudId := some "cBig",
    cloudParentId := some "froot", etag := some "eB", missingFromCloud := false,
    dirty := false, deleted := false, syncState := "synced", lastSynced := 3 }

/-- Its empty cache record. -/
def cacheMissing : CacheRow :=
  { objectId := "big1", localPath := none, size := 0, fileHash := none,
    presentLocally := 0, pinned := false, lastAccessed := 0, openCount := 0 }

/-- Store with the cloud-only file. -/
def dbCloudOnly : DBState :=
  { objects := [cloudOnlyObj], shadows := [], driveCache := [cacheMissing],
    actions := [], nextActionId := 1 }

/-- The command line of a file-manager process on the blacklist. -/
def blacklistedCmd : Option String :=
  some "/usr/bin/nautilus --gapplication-service"

/-- A clean (dirty=0) copy of o1, held open by three handles in its cache row. -/
def oEvict : ObjectRow :=
  { oDirty with dirty := false }

/-- Cache row for the evict experiment: fully present, pinned, open-count 3. -/
def cacheBusy : CacheRow :=
  { cacheO1 with openCount := 3, pinned := true }

/-- Adapter world for the evict experiment: clean file, open-count 3, 100 bytes
on disk. -/
def stEvict : FSState :=
  { db := { objects := [oEvict], shadows := [], driveCache := [cacheBusy],
            actions := [], nextActionId := 1 },
    disk := [("o1", 100)] }

/-- Adapter world for the unlink experiment: o1 with shadow, cache and disk file. -/
def stUnlink : FSState :=
  { db := dbPull, disk := [("o1", 100)] }

/-! ## Helper lemmas -/

/-- find? commutes with a map that preserves the predicate. -/
theorem find?_map_pres {α : Type} (p : α → Bool) (g : α → α)
    (hp : ∀ a, p (g a) = p a) (l : List α) :
    (l.map g).find? p = (l.find? p).map g := by
  induction l with
  | nil => rfl
  | cons a t ih =>
    cases h : p a with
    | true =>
      rw [List.map_cons, List.find?_cons_of_pos (t.map g) (by rw [hp a]; exact h),
        List.find?_cons_of_pos t h]
      rfl
    | false =>
      rw [List.map_cons, List.find?_cons_of_neg (t.map g) (by simp [hp a, h]),
        List.find?_cons_of_neg t (by simp [h]), ih]

/-- enqueue_action only reads and writes the actions table. -/
theorem enqueueAction_objects (s : DBState) (t ty dir : String) (d : Option String)
    (m : Meta) (p : Int) (n : Nat) :
    (enqueueAction s t ty dir d m p n).objects = s.objects := by
  unfold enqueueAction
  dsimp only
  split
  · rfl
  · split <;> split <;> rfl

/-- enqueue_action leaves the shadows table untouched. -/
theorem enqueueAction_shadows (s : DBState) (t ty dir : String) (d : Option String)
    (m : Meta) (p : Int) (n : Nat) :
    (enqueueAction s t ty dir d m p n).shadows = s.shadows := by
  unfold enqueueAction
  dsimp only
  split
  · rfl
  · split <;> split <;> rfl

/-- enqueue_action leaves the drive_cache table untouched. -/
theorem enqueueAction_driveCache (s : DBState) (t ty dir : String)
    (d : Option String) (m : Meta) (p : Int) (n : Nat) :
    (enqueueAction s t ty dir d m p n).driveCache = s.driveCache := by
  unfold enqueueAction
  dsimp only
  split
  · rfl
  · split <;> split <;> rfl

/-- Enqueuing a delete always discards the pending and failed actions of the
target and appends a fresh pending delete row. -/
theorem enqueueAction_delete_eq (s : DBState) (t dir : String) (d : Option String)
    (m : Meta) (p : Int) (n : Nat) :
    enqueueAction s t "delete" dir d m p n =
      { s with
        actions := (s.actions.filter (fun a =>
            !(a.targetId == t && (a.status == "pending" || a.status == "failed")))) ++
          [{ actionId := s.nextActionId, actionType := "delete", targetId := t,
             destination := d, metadata := m, direction := dir, priority := p,
             createdAt := n, status := "pending", retryCount := 0,
             lastError := none }],
        nextActionId := s.nextActionId + 1 } := rfl

/-- Enqueuing a download never coalesces: a fresh pending row is appended. -/
theorem enqueueAction_download_eq (s : DBState) (t dir : String)
    (d : Option String) (m : Meta) (p : Int) (n : Nat) :
    enqueueAction s t "download" dir d m p n =
      { s with
        actions := s.actions ++
          [{ actionId := s.nextActionId, actionType := "download", targetId := t,
             destination := d, metadata := m, direction := dir, priority := p,
             createdAt := n, status := "pending", retryCount := 0,
             lastError := none }],
        nextActionId := s.nextActionId + 1 } := rfl

/-- Enqueuing a rename unfolds to a case split on the rename coalescing scan. -/
theorem enqueueAction_rename_scan (s : DBState) (target dir : String)
    (d : Option String) (m : Meta) (p : Int) (now : Nat) :
    enqueueAction s target "rename" dir d m p now =
      (match renameScan d m (pendingDesc s target) with
       | .updateRow aid d? m2 =>
         { s with actions := s.actions.map (fun a =>
             if a.actionId == aid then
               { a with destination := d?.getD a.destination, metadata := m2,
                        status := "pending", retryCount := 0, lastError := none }
             else a) }
       | .insert =>
         { s with
           actions := s.actions ++
             [{ actionId := s.nextActionId, actionType := "rename",
                targetId := target, destination := d, metadata := m,
                direction := dir, priority := p, createdAt := now,
                status := "pending", retryCount := 0, lastError := none }],
           nextActionId := s.nextActionId + 1 }) := rfl

/-- The rename scan walks over any leading block of non-processing moves and folds
into the first non-processing rename it meets. -/
theorem renameScan_through_moves (d : Option String) (m : Meta)
    (movesBlock : List ActionRow) (r : ActionRow) (rest : List ActionRow)
    (hm : ∀ a ∈ movesBlock, a.actionType = "move" ∧ a.status ≠ "processing")
    (hr : r.actionType = "rename") (hrs : r.status ≠ "processing") :
    renameScan d m (movesBlock ++ r :: rest) =
      .updateRow r.actionId (some d)
        (metaSet r.metadata "to_name" (metaGet m "to_name")) := by
  induction movesBlock with
  | nil =>
    rw [List.nil_append, renameScan]
    rw [show (r.status == "processing") = false from by simp [hrs],
      show (r.actionType == "rename") = true from by simp [hr]]
    rfl
  | cons a t ih =>
    have ha := hm a (List.mem_cons_self a t)
    rw [List.cons_append, renameScan]
    rw [show (a.status == "processing") = false from by simp [ha.2],
      show (a.actionType == "rename") = false from by rw [ha.1]; rfl,
      show (a.actionType == "upload" || a.actionType == "update_content") = false
        from by rw [ha.1]; rfl,
      show (a.actionType == "move") = true from by rw [ha.1]; rfl]
    exact ih (fun x hx => hm x (List.mem_cons_of_mem a hx))

/-- Looking up a key after filtering that key out always misses. -/
theorem lookup_filter_ne {β : Type} (l : List (String × β)) (k : String) :
    (l.filter (fun q => q.1 != k)).lookup k = none := by
  induction l with
  | nil => rfl
  | cons a t ih =>
    obtain ⟨a1, a2⟩ := a
    cases h : (a1 != k) with
    | false =>
      rw [List.filter_cons_of_neg (by simp [h]), ih]
    | true =>
      have hne : (k == a1) = false :=
        beq_eq_false_iff_ne.mpr (Ne.symm (bne_iff_ne.mp h))
      rw [List.filter_cons_of_pos (by simp [h])]
      simp only [List.lookup, hne]
      exact ih

/-! ## Claims -/

/-- C1: the claim states that after the engine's upload handler succeeds the Object
is synced and a Shadow row with the Object's etag exists.  Evaluating the embedded
handler at a freshly created file shows the code marks the row synced with the new
etag but writes no Shadow row at all: the shadows table stays empty, so no Shadow
carries the new etag.  OrchardDB.update_shadow is never called anywhere in the
repository, although OrchardFS.release reads shadows expecting them to be kept. -/
theorem C1_upload_synced_without_shadow :
    getObject (handleUploadFileSuccess dbUpload "f1" uploadResp1 100) "f1" =
      some { uploadObjRow with cloudId := some "c1", etag := some "e1",
                               dirty := false, syncState := "synced",
                               lastSynced := 100 } ∧
    (handleUploadFileSuccess dbUpload "f1" uploadResp1 100).shadows = [] :=
  ⟨rfl, rfl⟩

/-- C2 counterexample: the remote reports etag "e2" for a file whose local row is
dirty with etag "e1".  The claim says the row is skipped and set to conflict with
no download.  The code instead overwrites the row's metadata (etag becomes "e2",
size 7, sync_state stays "pending_push", dirty stays 1) and enqueues a download. -/
theorem C2_counterexample :
    getObject (pullItemStep dbPull "froot" "drive_root" itemF "fresh-id" 50) "o1" =
      some { oDirty with etag := some "e2", size := 7 } ∧
    (pullItemStep dbPull "froot" "drive_root" itemF "fresh-id" 50).actions.any
      (fun a => a.actionType == "download" && a.targetId == "o1") = true ∧
    oDirty.dirty = true ∧ oDirty.etag ≠ itemF.etag :=
  ⟨rfl, rfl, rfl, by decide⟩

/-- C2 amended: during list_children reconciliation a remote item matching an
existing local Object by cloud id whose etag differs overwrites the local row's
metadata regardless of the dirty flag (dirty and sync-state survive per-row but
are never set to conflict here), and when the cached copy of a file is present a
download is enqueued.  Conflict is only set by the remote-deletion sweep. -/
theorem C2_amended_pull_overwrites_dirty (s : DBState)
    (cloudFolderId localParentId freshId : String) (item : RemoteItem)
    (row : ObjectRow) (cache : CacheRow) (now : Nat)
    (hfind : s.objects.find? (fun o =>
        (itemCloudId item).isSome && o.cloudId == itemCloudId item) = some row)
    (hne : row.etag ≠ item.etag)
    (hfile : item.itype = "FILE")
    (hc : getCacheRow s row.oid = some cache)
    (hpres : cache.presentLocally ≠ 0) :
    (pullItemStep s cloudFolderId localParentId item freshId now).objects =
      s.objects.map (fun o =>
        if o.oid == row.oid then
          { o with etag := item.etag, name := stripExt item.name item.extension,
                   size := item.size, extension := item.extension,
                   parentId := some localParentId,
                   cloudParentId := some cloudFolderId,
                   missingFromCloud := false }
        else o) ∧
    (pullItemStep s cloudFolderId localParentId item freshId now).actions.any
      (fun a => a.actionType == "download" && a.targetId == row.oid &&
        a.direction == "pull" && a.status == "pending") = true := by
  have h1 : (row.etag != item.etag) = true := bne_iff_ne.mpr hne
  have h2 : (item.itype == "FILE") = true := by simp [hfile]
  have h3 : (cache.presentLocally != 0) = true := bne_iff_ne.mpr hpres
  simp only [pullItemStep, hfind, h1, h2, hc, h3, if_true, enqueueAction_download_eq]
  refine ⟨by trivial, ?_⟩
  simp

/-- C2 amended, witness: at the concrete dirty-file state the overwrite and the
download enqueue both happen. -/
theorem C2_amended_witness :
    (pullItemStep dbPull "froot" "drive_root" itemF "fresh-id" 50).objects =
      dbPull.objects.map (fun o =>
        if o.oid == "o1" then
          { o with etag := itemF.etag, name := stripExt itemF.name itemF.extension,
                   size := itemF.size, extension := itemF.extension,
                   parentId := some "drive_root", cloudParentId := some "froot",
                   missingFromCloud := false }
        else o) ∧
    (pullItemStep dbPull "froot" "drive_root" itemF "fresh-id" 50).actions.any
      (fun a => a.actionType == "download" && a.targetId == "o1" &&
        a.direction == "pull" && a.status == "pending") = true :=
  C2_amended_pull_overwrites_dirty dbPull "froot" "drive_root" "fresh-id" itemF
    oDirty cacheO1 50 rfl (by decide) rfl rfl (by decide)

/-- C3 counterexample: an error message carrying every transient marker the spec
lists (connection, socket, timeout, 503, 409) still lands in fail_action: the
action is marked failed with retry-count incremented to 1, not reset to pending
with retry-count unchanged, and nothing clears any session state. -/
theorem C3_counterexample :
    (failAction dbProcessing 1 "f1" transientMsg).actions =
      [{ procActionRow with status := "failed", retryCount := 1,
                              lastError := some transientMsg }] ∧
    strContains transientMsg "timeout" = true ∧
    strContains transientMsg "503" = true ∧
    strContains transientMsg "socket" = true :=
  ⟨rfl, by decide, by decide, by decide⟩

/-- C3 amended: every handler failure, whatever the message text, marks the action
failed and increments retry-count by one (while the retry cap is not yet
exceeded); the objects table is untouched.  There is no transient classification
and no session reset anywhere in the dispatch loop. -/
theorem C3_amended_all_failures_marked_failed (s : DBState) (aid : Nat)
    (target msg : String) (a : ActionRow)
    (ha : s.actions.find? (fun x => x.actionId == aid) = some a)
    (hretry : a.retryCount < MAX_RETRIES) :
    (failAction s aid target msg).actions.find? (fun x => x.actionId == aid) =
      some { a with status := "failed", lastError := some msg,
                    retryCount := a.retryCount + 1 } ∧
    (failAction s aid target msg).objects = s.objects := by
  have hp : ∀ x : ActionRow,
      ((if x.actionId == aid then
          { x with status := "failed", lastError := some msg,
                   retryCount := x.retryCount + 1 }
        else x).actionId == aid) = (x.actionId == aid) := by
    intro x
    cases h : (x.actionId == aid) <;> simp [h]
  have hpa : (a.actionId == aid) = true :=
    @List.find?_some ActionRow (fun x => x.actionId == aid) a s.actions ha
  have hmap : (s.actions.map (fun x : ActionRow =>
      if x.actionId == aid then
        { x with status := "failed", lastError := some msg,
                 retryCount := x.retryCount + 1 }
      else x)).find? (fun x => x.actionId == aid) =
      some { a with status := "failed", lastError := some msg,
                    retryCount := a.retryCount + 1 } := by
    rw [find?_map_pres _ _ hp s.actions, ha]
    have haid : a.actionId = aid := by simpa using hpa
    simp [haid]
  unfold failAction
  dsimp only
  rw [hmap]
  dsimp only
  rw [if_neg (by unfold MAX_RETRIES at hretry ⊢; omega)]
  exact ⟨hmap, rfl⟩

/-- C3 amended, witness: the transient-looking failure at the concrete state. -/
theorem C3_amended_witness :
    (failAction dbProcessing 1 "f1" transientMsg).actions.find?
      (fun x => x.actionId == 1) =
      some { procActionRow with status := "failed",
                                  lastError := some transientMsg,
                                  retryCount := 1 } ∧
    (failAction dbProcessing 1 "f1" transientMsg).objects = dbProcessing.objects :=
  C3_amended_all_failures_marked_failed dbProcessing 1 "f1" transientMsg
    procActionRow rfl (by decide)

/-- C4: the claim states a read with missing chunks enqueues one download_chunk per
missing chunk and the engine executes them.  At a concrete cloud-only file, a
1 MiB read at offset 50 MiB computes the needed chunk range [6] but then calls
OrchardDB.get_present_chunks, a method the store does not define, so the read
raises AttributeError with no action enqueued (the store is returned unchanged);
moreover the schema has no chunk_cache table and _process_task has no
download_chunk handler, so such an action could never be executed anyway. -/
theorem C4_read_chunk_path_broken :
    fsRead dbCloudOnly "big1" (some "/usr/bin/cp /mnt/Drive/movie.mkv /tmp")
      1048576 52428800 = (.attrError "get_present_chunks", dbCloudOnly) ∧
    neededChunks 52428800 1048576 = [6] ∧
    orchardDBMethods.contains "get_present_chunks" = false ∧
    schemaTables.contains "chunk_cache" = false ∧
    processTaskHandler "download_chunk" "pull" false = none :=
  ⟨by decide, by decide, by decide, by decide, rfl⟩

/-- C5 counterexample: opening the store runs only the idempotent schema script and
the two INSERT OR IGNORE root rows; an action left in status processing is still
processing afterwards, and the dispatcher will never select it again (it selects
only pending and due failed rows). -/
theorem C5_counterexample :
    (initDb dbProcessing).actions = [procActionRow] ∧
    procActionRow.status = "processing" ∧
    getNextRetryableAction (initDb dbProcessing) 1000000000 = none :=
  ⟨rfl, rfl, rfl⟩

/-- C5 amended: OrchardDB._init_db never modifies the actions table, so rows left
in status processing survive a restart unchanged. -/
theorem C5_amended_initDb_preserves_actions (s : DBState) :
    (initDb s).actions = s.actions := by
  unfold initDb insertOrIgnoreObject
  split <;> split <;> rfl

/-- C6: the claim states the delete handler hard-deletes the Object, CacheRecord
and Shadow rows.  At a concrete synced file with a shadow row, the handler calls
the remote delete and removes the objects and drive_cache rows but leaves the
shadows row in place (there is no DELETE FROM shadows, and the schema's ON DELETE
CASCADE never fires because PRAGMA foreign_keys is never enabled); and for an
object without a cloud id the handler returns having deleted nothing at all. -/
theorem C6_delete_leaves_shadow :
    handleDelete dbPull "o1" =
      ({ objects := [], shadows := [shadowO1], driveCache := [], actions := [],
         nextActionId := 1 }, true) ∧
    handleDelete dbDeleteNoCloud "o2" = (dbDeleteNoCloud, false) :=
  ⟨rfl, rfl⟩

/-- C7 counterexample: a clean (dirty=0) fully-present file whose cache row shows
open-count 3 is still evicted when pinned is set to false: present_locally drops
to 0 and the on-disk file is truncated to 0 bytes, so open-count is not a
precondition; and instead of clearing a chunk set, the handler hits the missing
chunk_cache table. -/
theorem C7_counterexample :
    cacheBusy.openCount = 3 ∧ oEvict.dirty = false ∧
    (setxattrSetPinned stEvict "o1" false 9).1.db.driveCache =
      [{ cacheBusy with pinned := false, presentLocally := 0 }] ∧
    (setxattrSetPinned stEvict "o1" false 9).1.disk = [("o1", 0)] ∧
    (setxattrSetPinned stEvict "o1" false 9).2 = .noSuchTable "chunk_cache" :=
  ⟨rfl, rfl, rfl, rfl, rfl⟩

/-- C7 amended: unpinning consults only the dirty flag.  When the object is dirty
the evict is refused: the disk and the present flags are untouched and only
pinned is cleared.  When the object is clean the evict proceeds for any
open-count: pinned is cleared, present_locally is set to 0, the cache file is
truncated to 0 bytes, and the chunk-set clearing step fails because the schema
has no chunk_cache table. -/
theorem C7_amended_evict_checks_only_dirty (st : FSState) (objId : String)
    (o : ObjectRow) (now : Nat)
    (ho : getObject st.db objId = some o)
    (hc : st.db.driveCache.any (fun c => c.objectId == objId) = true) :
    (o.dirty = true →
      (setxattrSetPinned st objId false now).1.disk = st.disk ∧
      (setxattrSetPinned st objId false now).1.db.driveCache =
        st.db.driveCache.map (fun c =>
          if c.objectId == objId then { c with pinned := false } else c) ∧
      (setxattrSetPinned st objId false now).2 = .ok) ∧
    (o.dirty = false →
      (setxattrSetPinned st objId false now).1.disk =
        st.disk.map (fun q => if q.1 == objId then (q.1, 0) else q) ∧
      (setxattrSetPinned st objId false now).1.db.driveCache =
        st.db.driveCache.map (fun c =>
          if c.objectId == objId then
            { c with pinned := false, presentLocally := 0 }
          else c) ∧
      (setxattrSetPinned st objId false now).2 = .noSuchTable "chunk_cache") := by
  unfold setxattrSetPinned
  rw [ho]
  simp only [hc]
  constructor
  · intro hd
    rw [hd]
    exact ⟨rfl, rfl, rfl⟩
  · intro hd
    rw [hd]
    refine ⟨rfl, ?_, rfl⟩
    show (st.db.driveCache.map (fun c : CacheRow =>
        if c.objectId == objId then { c with pinned := false } else c)).map
        (fun c : CacheRow =>
          if c.objectId == objId then { c with presentLocally := 0 } else c) =
      st.db.driveCache.map (fun c =>
        if c.objectId == objId then
          { c with pinned := false, presentLocally := 0 }
        else c)
    rw [List.map_map]
    refine List.map_congr_left ?_
    intro c _
    cases h : (c.objectId == objId) <;> simp [Function.comp, h]

/-- C7 amended, witness: at the clean, open-count-3 state the evict proceeds. -/
theorem C7_amended_witness :
    (setxattrSetPinned stEvict "o1" false 9).1.disk =
      stEvict.disk.map (fun q => if q.1 == "o1" then (q.1, 0) else q) ∧
    (setxattrSetPinned stEvict "o1" false 9).1.db.driveCache =
      stEvict.db.driveCache.map (fun c =>
        if c.objectId == "o1" then
          { c with pinned := false, presentLocally := 0 }
        else c) ∧
    (setxattrSetPinned stEvict "o1" false 9).2 = .noSuchTable "chunk_cache" :=
  (C7_amended_evict_checks_only_dirty stEvict "o1" oEvict 9 rfl rfl).2 rfl

/-- C8: enqueuing a rename when the head of the target's coalescing queue
(most-recent first, ignoring a leading block of non-processing moves) is a
non-processing rename inserts no row: it overwrites that rename's destination and
metadata to_name and resets it to pending with retry-count 0 and last-error
cleared, leaving every other action row unchanged. -/
theorem C8_rename_coalesces (s : DBState) (target dir : String) (d : Option String)
    (m : Meta) (p : Int) (now : Nat) (movesBlock : List ActionRow) (r : ActionRow)
    (rest : List ActionRow)
    (hq : pendingDesc s target = movesBlock ++ r :: rest)
    (hm : ∀ a ∈ movesBlock, a.actionType = "move" ∧ a.status ≠ "processing")
    (hr : r.actionType = "rename") (hrs : r.status ≠ "processing") :
    enqueueAction s target "rename" dir d m p now =
      { s with actions := s.actions.map (fun a =>
          if a.actionId == r.actionId then
            { a with destination := d,
                     metadata := metaSet r.metadata "to_name" (metaGet m "to_name"),
                     status := "pending", retryCount := 0, lastError := none }
          else a) } := by
  rw [enqueueAction_rename_scan, hq,
    renameScan_through_moves d m movesBlock r rest hm hr hrs]
  exact rfl

/-- C8 witness: two successive renames (a.txt to b.txt, then b.txt to c.txt)
before the engine runs leave exactly one rename action, destination c.txt. -/
theorem C8_witness :
    enqueueAction dbRename1 "f1" "rename" "push" (some "c.txt")
      [("from_name", some "b.txt"), ("to_name", some "c.txt")] 0 101 =
      { dbRename1 with actions := dbRename1.actions.map (fun a =>
          if a.actionId == renameRowB.actionId then
            { a with destination := some "c.txt",
                     metadata := metaSet renameRowB.metadata "to_name"
                       (metaGet [("from_name", some "b.txt"),
                                 ("to_name", some "c.txt")] "to_name"),
                     status := "pending", retryCount := 0, lastError := none }
          else a) } ∧
    (enqueueAction dbRename1 "f1" "rename" "push" (some "c.txt")
      [("from_name", some "b.txt"), ("to_name", some "c.txt")] 0 101).actions =
      [{ renameRowB with destination := some "c.txt",
                           metadata := [("from_name", some "a.txt"),
                                        ("to_name", some "c.txt")] }] :=
  ⟨C8_rename_coalesces dbRename1 "f1" "push" (some "c.txt")
      [("from_name", some "b.txt"), ("to_name", some "c.txt")] 0 101 [] renameRowB
      [] rfl (by intro a ha; exact absurd ha (List.not_mem_nil a)) rfl (by decide),
   by decide⟩

/-- C9: a read issued by a blacklisted process against a file that is not fully
present is denied with EACCES before any queue access: the store is returned
verbatim, so no action of any kind is enqueued. -/
theorem C9_blacklisted_read_eacces (s : DBState) (objId : String)
    (cmd : Option String) (size offset : Nat)
    (hnotfull : ∀ c ∈ s.driveCache, c.objectId = objId → c.presentLocally ≠ 1)
    (hb : isBlacklistedProcess cmd = true) :
    fsRead s objId cmd size offset = (.eacces, s) := by
  unfold fsRead
  rw [hb]
  rfl

/-- C9 witness: a nautilus thumbnailer read of the cloud-only file. -/
theorem C9_witness :
    fsRead dbCloudOnly "big1" blacklistedCmd 4096 0 = (.eacces, dbCloudOnly) :=
  C9_blacklisted_read_eacces dbCloudOnly "big1" blacklistedCmd 4096 0
    (by decide) (by decide)

/-- C10: unlink on a file object keeps the objects row (now flagged deleted=1),
enqueues a pending delete action for it, and removes the on-disk cache file
immediately - all before the engine has made any remote call. -/
theorem C10_unlink_removes_cache_keeps_row (st : FSState) (objId : String)
    (o : ObjectRow) (now : Nat)
    (ho : getObject st.db objId = some o) (hf : o.otype = "file") :
    getObject (fsUnlink st objId now).db objId = some { o with deleted := true } ∧
    (fsUnlink st objId now).db.actions.any (fun a =>
      a.actionType == "delete" && a.targetId == objId &&
      a.direction == "push" && a.status == "pending") = true ∧
    (fsUnlink st objId now).disk.lookup objId = none := by
  have hp : ∀ x : ObjectRow,
      ((if x.oid == objId then { x with deleted := true } else x).oid == objId) =
        (x.oid == objId) := by
    intro x
    cases h : (x.oid == objId) <;> simp [h]
  have hpo : (o.oid == objId) = true :=
    @List.find?_some ObjectRow (fun x => x.oid == objId) o st.db.objects ho
  unfold fsUnlink
  dsimp only
  refine ⟨?_, ?_, ?_⟩
  · unfold getObject
    rw [enqueueAction_objects]
    dsimp only
    rw [find?_map_pres _ _ hp st.db.objects]
    unfold getObject at ho
    rw [ho]
    have hoid : o.oid = objId := by simpa using hpo
    simp [hoid]
  · rw [enqueueAction_delete_eq]
    simp
  · rw [ho, show ((some o).any (fun x : ObjectRow => x.otype == "file")) = true
        from by simp [hf]]
    exact lookup_filter_ne st.disk objId

/-- C10 witness: unlinking the cached file o1. -/
theorem C10_witness :
    getObject (fsUnlink stUnlink "o1" 77).db "o1" =
      some { oDirty with deleted := true } ∧
    (fsUnlink stUnlink "o1" 77).db.actions.any (fun a =>
      a.actionType == "delete" && a.targetId == "o1" &&
      a.direction == "push" && a.status == "pending") = true ∧
    (fsUnlink stUnlink "o1" 77).disk.lookup "o1" = none :=
  C10_unlink_removes_cache_keeps_row stUnlink "o1" oDirty 77 rfl rfl

end Orchard
